import Mathlib

/-!
Shallow embedding of the dungeon-sheets class/subclass/feature/spell
composition core (src/dungeonsheets/classes/classes.py,
src/dungeonsheets/features/features.py, src/dungeonsheets/spells/spells.py),
together with theorems settling the claims about it.

Python strings become `String`, Python `None` becomes `Option.none`,
Python lists/tuples become `List`, and the fallible constructor is an
`Except`.  Python truthiness of an optional string or table is made
explicit (`strTruthy`, `tableTruthy`).
-/

namespace DungeonSheets

/-- Does the character list `hay` start with `needle`? -/
def charsStartWith : List Char → List Char → Bool
  | _, [] => true
  | [], _ :: _ => false
  | c :: cs, d :: ds => c == d && charsStartWith cs ds

/-- Does `needle` occur as a contiguous run inside `hay`? -/
def charsContain (hay needle : List Char) : Bool :=
  charsStartWith hay needle ||
    match hay with
    | [] => false
    | _ :: t => charsContain t needle

/-- Python `str.lower()`: lowercase every character. -/
def pyLower (s : String) : String :=
  String.mk (s.data.map Char.toLower)

/-- Substring containment, mirroring the Python `needle in hay` test on
strings: the empty needle is contained in everything. -/
def strContains (hay needle : String) : Bool :=
  charsContain hay.data needle.data

/-! ## Features (features.py) -/

/-- The class-level data of a concrete plain `Feature` subtype:
`name`, `source`, its documentation string and the
`needs_implementation` default (features.py lines 29-44). -/
structure FeatureData where
  name : String
  source : String
  doc : String
  needs_implementation : Bool := false
deriving Repr, DecidableEq

/-- A runtime `Feature` instance.  Instantiating a feature class copies
the class attributes onto the instance. -/
structure Feature where
  name : String
  source : String
  doc : String
  needs_implementation : Bool
deriving Repr, DecidableEq

/-- `feat_class(owner=owner)`: instantiate a plain feature class
(features.py `Feature.__init__`); the instance carries the class
attributes. -/
def FeatureData.instantiate (d : FeatureData) : Feature :=
  { name := d.name, source := d.source, doc := d.doc,
    needs_implementation := d.needs_implementation }

/-- `Feature.__eq__` (features.py lines 46-47): equality by name and
source. -/
def Feature.eqFeature (a b : Feature) : Bool :=
  a.name == b.name && a.source == b.source

/-- The class-level data of a concrete `FeatureSelector` subtype
(features.py lines 72-79): a name, a source, documentation, and an
`options` mapping from lowercase option name to a concrete feature
class, modelled as an association list with the first binding of a key
the one `dict` lookup returns. -/
structure SelectorData where
  name : String
  source : String
  doc : String
  options : List (String × FeatureData)
deriving Repr, DecidableEq

/-- `t.options[selection.lower()]` guarded by
`selection.lower() in t.options` (features.py lines 89-90). -/
def lookupOption (opts : List (String × FeatureData)) (key : String) :
    Option FeatureData :=
  (opts.find? (fun p => p.fst == key)).map Prod.snd

/-- The character that owns a class: the environment the core consults.
`hasFeature` models the `owner.has_feature(feat_class)` query of
features.py line 91 (the `Character` collaborator answers whether it
already holds a feature equal, by name and source, to the given feature
class). -/
structure Owner where
  hasFeature : FeatureData → Bool

/-- The placeholder instance built at the top of
`FeatureSelector.__new__` (features.py lines 83-87): the selector name,
source and documentation, flagged `needs_implementation`. -/
def SelectorData.placeholder (t : SelectorData) : Feature :=
  { name := t.name, source := t.source, doc := t.doc,
    needs_implementation := true }

/-- One iteration of the `for selection in feature_choices` loop of
`FeatureSelector.__new__` (features.py lines 88-94): a choice whose
lowercase form is an option key and whose feature class the owner does
not already have replaces the current `new_feat`, with `source` stamped
from the selector; every other choice leaves `new_feat` unchanged. -/
def selectorStep (t : SelectorData) (owner : Owner) (acc : Feature)
    (selection : String) : Feature :=
  match lookupOption t.options (pyLower selection) with
  | none => acc
  | some feat_class =>
    if owner.hasFeature feat_class then acc
    else { feat_class.instantiate with source := t.source }

/-- `FeatureSelector.__new__` (features.py lines 81-95): fold the loop
over the choice list, starting from the placeholder. -/
def selectorResolve (t : SelectorData) (owner : Owner)
    (feature_choices : List String) : Feature :=
  feature_choices.foldl (selectorStep t owner) t.placeholder

/-- A feature class as declared in a `features_by_level` table: either a
plain `Feature` subtype or a `FeatureSelector` subtype (the
`issubclass` dispatch of classes.py lines 73-76). -/
inductive FeatureClass where
  | plain (d : FeatureData)
  | selector (s : SelectorData)
deriving Repr, DecidableEq

/-- Instantiating one declared feature class during class construction
(classes.py lines 73-76 and 110-113): selectors are resolved against
the feature choices, plain features are instantiated directly. -/
def instantiateFeatureClass (owner : Owner) (feature_choices : List String) :
    FeatureClass → Feature
  | FeatureClass.plain d => d.instantiate
  | FeatureClass.selector s => selectorResolve s owner feature_choices

/-! ## Spells (spells.py) -/

/-- A `Spell` instance (spells.py lines 13-26).  `_concentration` is the
private override flag behind the `concentration` property. -/
structure Spell where
  level : Nat := 0
  name : String := "Unknown spell"
  casting_time : String := "1 action"
  casting_range : String := "60 ft"
  components : List String := []
  materials : String := ""
  duration : String := "instantaneous"
  ritual : Bool := false
  _concentration : Bool := false
  magic_school : String := ""
deriving Repr, DecidableEq

/-- `Spell.__eq__` (spells.py lines 45-46): equality by name and
level only. -/
def Spell.eqSpell (a b : Spell) : Bool :=
  a.name == b.name && a.level == b.level

/-- The `concentration` property getter (spells.py lines 58-60): the
duration text contains "concentration" case-insensitively, or the
override flag is set. -/
def Spell.concentration (s : Spell) : Bool :=
  strContains (pyLower s.duration) "concentration" || s._concentration

/-- The `concentration` property setter (spells.py lines 62-64): store
the value in the `_concentration` override flag. -/
def Spell.setConcentration (s : Spell) (val : Bool) : Spell :=
  { s with _concentration := val }

/-- The `special_material` property (spells.py lines 66-68). -/
def Spell.special_material (s : Spell) : Bool :=
  strContains (pyLower s.materials) "worth"

/-! ## Classes (classes.py) -/

/-- Python truthiness of an optional string (the `spellcasting_ability`
attribute): `None` and the empty string are falsy. -/
def strTruthy : Option String → Bool
  | none => false
  | some s => s != ""

/-- Python truthiness of an optional spell-slot table: `None` and the
empty table are falsy. -/
def tableTruthy : Option (List (List Nat)) → Bool
  | none => false
  | some t => !t.isEmpty

/-- Python `x or y` on optional strings: `x` when truthy, else `y`. -/
def pyOrStr (x y : Option String) : Option String :=
  if strTruthy x then x else y

/-- Python `x or y` on optional spell-slot tables. -/
def pyOrTable (x y : Option (List (List Nat))) :
    Option (List (List Nat)) :=
  if tableTruthy x then x else y

/-- The class-level data of a concrete `SubClass` subtype (classes.py
lines 11-23). -/
structure SubClassData where
  name : String
  features_by_level : Nat → List FeatureClass
  weapon_proficiencies : List String
  _proficiencies_text : List String
  spellcasting_ability : Option String
  spell_slots_by_level : Option (List (List Nat))

/-- The class-level data of a concrete `CharClass` subtype (classes.py
lines 36-60). -/
structure CharClassData where
  name : String := "Default"
  hit_dice_faces : Nat := 2
  subclass_select_level : Nat := 3
  weapon_proficiencies : List String := []
  _proficiencies_text : List String := []
  multiclass_weapon_proficiencies : List String := []
  _multiclass_proficiencies_text : List String := []
  spellcasting_ability : Option String := none
  spell_slots_by_level : Option (List (List Nat)) := none
  subclasses_available : List SubClassData := []
  features_by_level : Nat → List FeatureClass := fun _ => []

/-- A constructed `CharClass` instance: the state after `__init__`
finished.  `features_by_level` is the fresh per-instance defaultdict,
modelled as a total function that is the empty list outside the keys
the constructor assigned. -/
structure CharClass where
  name : String
  level : Nat
  features_by_level : Nat → List Feature
  subclass : Option SubClassData
  weapon_proficiencies : List String
  _proficiencies_text : List String
  multiclass_weapon_proficiencies : List String
  _multiclass_proficiencies_text : List String
  spellcasting_ability : Option String
  spell_slots_by_level : Option (List (List Nat))

/-- The feature-instantiation loop of `CharClass.__init__` (classes.py
lines 68-77): for each level 1..20 instantiate the feature classes the
concrete class declares at that level; every other key keeps the
defaultdict default `[]`. -/
def buildFeatures (decl : Nat → List FeatureClass) (owner : Owner)
    (feature_choices : List String) (i : Nat) : List Feature :=
  if 1 ≤ i ∧ i ≤ 20 then
    (decl i).map (instantiateFeatureClass owner feature_choices)
  else []

/-- `CharClass.select_subclass` (classes.py lines 88-101).  Returns the
resolved subclass and whether a warning was emitted: the sentinel
strings and `None` give no subclass and no warning; otherwise the first
candidate whose name contains the request case-insensitively wins; a
request matching no candidate warns and gives no subclass. -/
def selectSubclass (avail : List SubClassData) :
    Option String → Option SubClassData × Bool
  | none => (none, false)
  | some str =>
    if str = "" ∨ str = "None" ∨ str = "none" then (none, false)
    else
      match avail.find? (fun sc => strContains (pyLower sc.name) (pyLower str)) with
      | some sc => (some sc, false)
      | none => (none, true)

/-- `CharClass.apply_subclass` (classes.py lines 103-130): append the
instantiated subclass features to each per-level list, concatenate the
proficiency tuples (base first), accumulate the multiclass proficiency
tuples, and take spellcasting ability and spell-slot table with Python
`or` (base wins when truthy). -/
def applySubclass (c : CharClass) (subcls : SubClassData) (owner : Owner)
    (feature_choices : List String) : CharClass :=
  { c with
    features_by_level := fun i =>
      c.features_by_level i ++
        buildFeatures subcls.features_by_level owner feature_choices i,
    weapon_proficiencies :=
      c.weapon_proficiencies ++ subcls.weapon_proficiencies,
    _proficiencies_text :=
      c._proficiencies_text ++ subcls._proficiencies_text,
    multiclass_weapon_proficiencies :=
      c.multiclass_weapon_proficiencies ++ subcls.weapon_proficiencies,
    _multiclass_proficiencies_text :=
      c._multiclass_proficiencies_text ++ subcls._proficiencies_text,
    spellcasting_ability :=
      pyOrStr c.spellcasting_ability subcls.spellcasting_ability,
    spell_slots_by_level :=
      pyOrTable c.spell_slots_by_level subcls.spell_slots_by_level }

/-- The state of a `CharClass` instance after classes.py lines 62-81
ran (before the subclass is applied): the class attributes copied down,
the fresh per-instance feature map built. -/
def baseInstance (cls : CharClassData) (level : Nat) (ow : Owner)
    (feature_choices : List String) : CharClass :=
  { name := cls.name
    level := level
    features_by_level := buildFeatures cls.features_by_level ow feature_choices
    subclass := none
    weapon_proficiencies := cls.weapon_proficiencies
    _proficiencies_text := cls._proficiencies_text
    multiclass_weapon_proficiencies := cls.multiclass_weapon_proficiencies
    _multiclass_proficiencies_text := cls._multiclass_proficiencies_text
    spellcasting_ability := cls.spellcasting_ability
    spell_slots_by_level := cls.spell_slots_by_level }

/-- `CharClass.__init__` (classes.py lines 62-86).  The constructor
first does `setattr(self.owner, self.name, self)`, which raises
`AttributeError` when the owner is `None`; with a real owner it builds
the fresh per-instance feature map, resolves the subclass and, when one
was found, merges it. -/
def construct (cls : CharClassData) (level : Nat) (owner : Option Owner)
    (subclass : Option String) (feature_choices : List String) :
    Except String CharClass :=
  match owner with
  | none =>
    Except.error "AttributeError: NoneType object has no settable attribute"
  | some ow =>
    match (selectSubclass cls.subclasses_available subclass).fst with
    | none => Except.ok (baseInstance cls level ow feature_choices)
    | some sc =>
      Except.ok { applySubclass (baseInstance cls level ow feature_choices) sc ow feature_choices with
                    subclass := some sc }

/-- The `features` property (classes.py lines 132-137): concatenation of
the per-level lists for levels 1 up to the current level, in order. -/
def CharClass.features (c : CharClass) : List Feature :=
  ((List.range c.level).map (fun k => c.features_by_level (k + 1))).flatten

/-- The `is_spellcaster` property (classes.py lines 139-142). -/
def CharClass.is_spellcaster (c : CharClass) : Bool :=
  c.spellcasting_ability.isSome

/-- `CharClass.spell_slots` (classes.py lines 144-149): 0 when there is
no table, otherwise `table[level][spell_level]`; an out-of-range index
raises, modelled as `none`. -/
def CharClass.spell_slots (c : CharClass) (spell_level : Nat) : Option Nat :=
  match c.spell_slots_by_level with
  | none => some 0
  | some table => (table.get? c.level).bind (fun row => row.get? spell_level)

/-- The successive values assigned to `new_feat` inside the loop of
`FeatureSelector.__new__` (features.py lines 88-94), in scan order: the
choices whose lowercase form is an option key and whose feature class
the owner does not already have. -/
def selectorPicks (t : SelectorData) (owner : Owner)
    (feature_choices : List String) : List FeatureData :=
  feature_choices.filterMap (fun selection =>
    match lookupOption t.options (pyLower selection) with
    | none => none
    | some d => if owner.hasFeature d then none else some d)

/-! ## Concrete example data used by counterexamples and witnesses -/

/-- An owner holding no features yet. -/
def demoOwner : Owner := { hasFeature := fun _ => false }

/-- A default instance used to read the payload out of a constructor
result that is known to be `ok`. -/
def emptyCharClass : CharClass :=
  { name := ""
    level := 0
    features_by_level := fun _ => []
    subclass := none
    weapon_proficiencies := []
    _proficiencies_text := []
    multiclass_weapon_proficiencies := []
    _multiclass_proficiencies_text := []
    spellcasting_ability := none
    spell_slots_by_level := none }

/-- Read the constructed instance out of an `ok` result. -/
def getOkD : Except String CharClass → CharClass
  | Except.ok c => c
  | Except.error _ => emptyCharClass

/-- A plain feature class used in examples. -/
def featA : FeatureData := { name := "Feat A", source := "", doc := "doc A" }

/-- A second plain feature class used in examples. -/
def featB : FeatureData := { name := "Feat B", source := "", doc := "doc B" }

/-- A selector with two options, in the style of a fighting-style
choice. -/
def demoSelector : SelectorData :=
  { name := "Fighting Style"
    source := "Fighter"
    doc := "Select a Fighting Style."
    options := [("a option", featA), ("b option", featB)] }

/-- A plain feature class granted at level 5 in examples. -/
def featHigh : FeatureData := { name := "Evasion", source := "Monk", doc := "" }

/-- A class declaring one feature at level 5 and nothing else. -/
def clsHigh : CharClassData :=
  { name := "Monk"
    features_by_level := fun i =>
      if i = 5 then [FeatureClass.plain featHigh] else [] }

/-- `clsHigh` constructed at level 1. -/
def builtLow : CharClass := getOkD (construct clsHigh 1 (some demoOwner) none [])

/-- `clsHigh` constructed at level 5. -/
def builtHigh5 : CharClass := getOkD (construct clsHigh 5 (some demoOwner) none [])

/-- A subclass that defines a spellcasting ability. -/
def shadowSub : SubClassData :=
  { name := "Way of Shadow"
    features_by_level := fun _ => []
    weapon_proficiencies := []
    _proficiencies_text := []
    spellcasting_ability := some "wisdom"
    spell_slots_by_level := none }

/-- A class whose own `spellcasting_ability` is the empty string: set,
but falsy for Python `or`. -/
def blankCaster : CharClassData :=
  { name := "Monk"
    spellcasting_ability := some ""
    subclasses_available := [shadowSub] }

/-- `blankCaster` constructed with the shadow subclass resolved. -/
def blankCasterBuilt : CharClass :=
  getOkD (construct blankCaster 3 (some demoOwner) (some "shadow") [])

/-- A spell whose duration text mentions concentration. -/
def concSpell : Spell :=
  { name := "Hold Person", level := 2,
    duration := "Concentration, up to 1 minute" }

/-- A spell with an instantaneous duration. -/
def plainSpell : Spell := { name := "Fire Bolt", level := 0 }

/-- An instance with no spell-slot table. -/
def noTableClass : CharClass := emptyCharClass

/-- An instance with a two-row spell-slot table, at level 1. -/
def slotClass : CharClass :=
  { emptyCharClass with
    level := 1
    spell_slots_by_level := some [[2, 3], [4, 5]] }

/-! ## Helper lemmas -/

/-- Folding the selector loop from any starting value yields the last
matching, not already possessed pick, stamped with the selector source,
or the starting value when there is no such pick. -/
theorem foldl_selectorStep_eq (t : SelectorData) (owner : Owner)
    (choices : List String) (init : Feature) :
    choices.foldl (selectorStep t owner) init =
      match (selectorPicks t owner choices).getLast? with
      | none => init
      | some d => { d.instantiate with source := t.source } := by
  induction choices using List.reverseRecOn generalizing init with
  | nil => simp [selectorPicks]
  | append_singleton rest c ih =>
    rw [List.foldl_append, List.foldl_cons, List.foldl_nil, ih]
    have hsplit : selectorPicks t owner (rest ++ [c]) =
        selectorPicks t owner rest ++ selectorPicks t owner [c] := by
      simp [selectorPicks, List.filterMap_append]
    rw [hsplit]
    cases h : lookupOption t.options (pyLower c) with
    | none =>
      have hone : selectorPicks t owner [c] = [] := by
        simp [selectorPicks, h]
      rw [hone, List.append_nil]
      cases (selectorPicks t owner rest).getLast? with
      | none => simp [selectorStep, h]
      | some d => simp [selectorStep, h]
    | some d =>
      by_cases hp : owner.hasFeature d
      · have hone : selectorPicks t owner [c] = [] := by
          simp [selectorPicks, h, hp]
        rw [hone, List.append_nil]
        cases (selectorPicks t owner rest).getLast? with
        | none => simp [selectorStep, h, hp]
        | some d2 => simp [selectorStep, h, hp]
      · have hone : selectorPicks t owner [c] = [d] := by
          simp [selectorPicks, h, hp]
        rw [hone, List.getLast?_concat]
        cases (selectorPicks t owner rest).getLast? with
        | none => simp [selectorStep, h, hp]
        | some d2 => simp [selectorStep, h, hp]

/-- A successful `find?` splits the list into unmatched elements, the
hit, and a tail. -/
theorem find?_split_of_eq_some {α : Type} (l : List α) (p : α → Bool) (a : α)
    (h : l.find? p = some a) :
    ∃ l1 l2, l = l1 ++ a :: l2 ∧ p a = true ∧ ∀ x ∈ l1, p x = false := by
  induction l with
  | nil => simp [List.find?] at h
  | cons b t ih =>
    by_cases hb : p b
    · refine ⟨[], t, ?_, ?_, by simp⟩
      · simp [List.find?, hb] at h
        simp [h]
      · simp [List.find?, hb] at h
        simpa [h.symm] using hb
    · simp [List.find?, hb] at h
      obtain ⟨l1, l2, rfl, hpa, hall⟩ := ih h
      refine ⟨b :: l1, l2, rfl, hpa, ?_⟩
      intro x hx
      rcases List.mem_cons.mp hx with rfl | hx2
      · simpa using hb
      · exact hall x hx2

/-- Characterization of every field the claims consult on a
successfully constructed instance. -/
theorem construct_ok (cls : CharClassData) (level : Nat) (ow : Owner)
    (sn : Option String) (fc : List String) (c : CharClass)
    (h : construct cls level (some ow) sn fc = Except.ok c) :
    c.level = level ∧
    c.subclass = (selectSubclass cls.subclasses_available sn).fst ∧
    (∀ i, c.features_by_level i =
      buildFeatures cls.features_by_level ow fc i ++
        (match (selectSubclass cls.subclasses_available sn).fst with
         | none => []
         | some sc => buildFeatures sc.features_by_level ow fc i)) ∧
    c.spellcasting_ability =
      (match (selectSubclass cls.subclasses_available sn).fst with
       | none => cls.spellcasting_ability
       | some sc => pyOrStr cls.spellcasting_ability sc.spellcasting_ability) ∧
    c.spell_slots_by_level =
      (match (selectSubclass cls.subclasses_available sn).fst with
       | none => cls.spell_slots_by_level
       | some sc => pyOrTable cls.spell_slots_by_level sc.spell_slots_by_level) := by
  cases hsel : (selectSubclass cls.subclasses_available sn).fst with
  | none =>
    simp only [construct, hsel] at h
    cases h
    simp [baseInstance]
  | some sc =>
    simp only [construct, hsel] at h
    cases h
    simp [baseInstance, applySubclass]

/-! ## Claim theorems -/

/-- C1 (amended): after construction, `features_by_level` holds, for
every level 1..20 — including levels above the constructed level — the
features the class declares for that level, and when a subclass was
selected (regardless of `subclass_select_level`) the subclass features
for that level are appended after the base features. -/
theorem C1_amended_features_by_level (cls : CharClassData) (level : Nat)
    (ow : Owner) (sn : Option String) (fc : List String) (c : CharClass)
    (h : construct cls level (some ow) sn fc = Except.ok c)
    (i : Nat) (h1 : 1 ≤ i) (h2 : i ≤ 20) :
    c.features_by_level i =
      (cls.features_by_level i).map (instantiateFeatureClass ow fc) ++
        (match c.subclass with
         | none => []
         | some sc => (sc.features_by_level i).map (instantiateFeatureClass ow fc)) := by
  obtain ⟨-, hsub, hfeat, -, -⟩ := construct_ok cls level ow sn fc c h
  rw [hfeat i, hsub]
  cases hsel : (selectSubclass cls.subclasses_available sn).fst with
  | none => simp [buildFeatures, h1, h2]
  | some sc => simp [buildFeatures, h1, h2]

/-- C1 (counterexample): a class declaring a feature at level 5,
constructed at level 1, ends with a nonempty `features_by_level` entry
at level 5, so the mapping does not contain entries only for levels at
or below the constructed level. -/
theorem C1_counterexample :
    construct clsHigh 1 (some demoOwner) none [] = Except.ok builtLow ∧
    builtLow.level = 1 ∧ builtLow.features_by_level 5 ≠ [] := by
  refine ⟨rfl, rfl, ?_⟩
  decide

/-- C1 (witness): the amended statement evaluated on the level-1
construction of `clsHigh` at entry 5. -/
theorem C1_amended_features_by_level_witness :
    builtLow.features_by_level 5 = [featHigh.instantiate] := by
  have h := C1_amended_features_by_level clsHigh 1 demoOwner none [] builtLow rfl 5
    (by decide) (by decide)
  rw [h]
  decide

/-- C2 (amended): selector resolution returns the option selected by
the LAST choice string whose lowercase form is an option key and whose
feature the owner does not already hold, instantiated with its source
stamped from the selector; matching choices whose feature is already
held are skipped, and with no such choice the placeholder is
returned. -/
theorem C2_last_match_wins (t : SelectorData) (owner : Owner)
    (choices : List String) :
    selectorResolve t owner choices =
      match (selectorPicks t owner choices).getLast? with
      | none => t.placeholder
      | some d => { d.instantiate with source := t.source } :=
  foldl_selectorStep_eq t owner choices t.placeholder

/-- C2 (counterexample): with two matching, not already possessed
choices, resolution returns the option of the second choice, not the
first, so the first matching not-already-possessed choice does not
determine the outcome. -/
theorem C2_counterexample :
    selectorResolve demoSelector demoOwner ["a option", "b option"] =
      { featB.instantiate with source := demoSelector.source } ∧
    selectorResolve demoSelector demoOwner ["a option", "b option"] ≠
      { featA.instantiate with source := demoSelector.source } := by
  constructor <;> decide

/-- C3: for a constructed instance at level L in 1..20, the `features`
property is exactly the concatenation, in ascending level order for
levels 1..L, of the base class features for each level followed by the
subclass features for that level when a subclass is set. -/
theorem C3_features_concatenation (cls : CharClassData) (level : Nat)
    (ow : Owner) (sn : Option String) (fc : List String) (c : CharClass)
    (h : construct cls level (some ow) sn fc = Except.ok c)
    (h1 : 1 ≤ level) (h2 : level ≤ 20) :
    c.features =
      ((List.range level).map (fun k =>
        (cls.features_by_level (k + 1)).map (instantiateFeatureClass ow fc) ++
          (match c.subclass with
           | none => []
           | some sc =>
             (sc.features_by_level (k + 1)).map
               (instantiateFeatureClass ow fc)))).flatten := by
  obtain ⟨hlvl, hsub, hfeat, -, -⟩ := construct_ok cls level ow sn fc c h
  rw [CharClass.features, hlvl]
  congr 1
  apply List.map_congr_left
  intro k hk
  have hk20 : k + 1 ≤ 20 := by
    have := List.mem_range.mp hk
    omega
  have hk1 : 1 ≤ k + 1 := by omega
  rw [hfeat (k + 1), hsub]
  cases hsel : (selectSubclass cls.subclasses_available sn).fst with
  | none => simp [buildFeatures, hk1, hk20]
  | some sc => simp [buildFeatures, hk1, hk20]

/-- C3 (witness): the `features` of `clsHigh` constructed at level 5
are exactly its one declared feature. -/
theorem C3_features_concatenation_witness :
    builtHigh5.features = [featHigh.instantiate] := by
  have h := C3_features_concatenation clsHigh 5 demoOwner none [] builtHigh5 rfl
    (by decide) (by decide)
  rw [h]
  decide

/-- C4: an empty, "none", "None" or absent subclass request yields no
subclass and no warning; any other request resolves to the first
candidate whose name contains the request case-insensitively, with no
warning; when no candidate matches, a warning is emitted, the subclass
is `none`, and construction still completes normally with the resolved
subclass recorded. -/
theorem C4_select_subclass (avail : List SubClassData) (s : Option String) :
    ((s = none ∨ s = some "" ∨ s = some "None" ∨ s = some "none") →
      selectSubclass avail s = (none, false)) ∧
    (∀ str, s = some str → str ≠ "" → str ≠ "None" → str ≠ "none" →
      ((∀ sc, (selectSubclass avail s).fst = some sc →
          (selectSubclass avail s).snd = false ∧
          ∃ l1 l2, avail = l1 ++ sc :: l2 ∧
            strContains (pyLower sc.name) (pyLower str) = true ∧
            ∀ x ∈ l1, strContains (pyLower x.name) (pyLower str) = false) ∧
        ((∀ sc ∈ avail, strContains (pyLower sc.name) (pyLower str) = false) →
          selectSubclass avail s = (none, true)))) ∧
    (∀ cls level ow fc,
      construct cls level (some ow) s fc =
        Except.ok (getOkD (construct cls level (some ow) s fc)) ∧
      (getOkD (construct cls level (some ow) s fc)).subclass =
        (selectSubclass cls.subclasses_available s).fst) := by
  refine ⟨?_, ?_, ?_⟩
  · rintro (rfl | rfl | rfl | rfl) <;> rfl
  · rintro str rfl hne1 hne2 hne3
    have hcond : ¬(str = "" ∨ str = "None" ∨ str = "none") := by tauto
    constructor
    · intro sc hsc
      rw [selectSubclass, if_neg hcond] at hsc ⊢
      cases hfind : avail.find? (fun x => strContains (pyLower x.name) (pyLower str)) with
      | none => rw [hfind] at hsc; simp at hsc
      | some f =>
        rw [hfind] at hsc
        simp at hsc
        subst hsc
        refine ⟨rfl, ?_⟩
        obtain ⟨l1, l2, heq, hpa, hall⟩ :=
          find?_split_of_eq_some avail _ f hfind
        exact ⟨l1, l2, heq, hpa, fun x hx => by simpa using hall x hx⟩
    · intro hall
      rw [selectSubclass, if_neg hcond]
      have hfind : avail.find? (fun x => strContains (pyLower x.name) (pyLower str)) = none := by
        rw [List.find?_eq_none]
        intro x hx
        simp [hall x hx]
      rw [hfind]
  · intro cls level ow fc
    cases hsel : (selectSubclass cls.subclasses_available s).fst <;>
      simp [construct, hsel, getOkD, baseInstance]

/-- C4 (witness): an absent request yields no subclass and no warning,
and a request matching no candidate yields no subclass with a
warning. -/
theorem C4_select_subclass_witness :
    selectSubclass [shadowSub] none = (none, false) ∧
    selectSubclass [shadowSub] (some "zzz") = (none, true) := by
  constructor
  · exact (C4_select_subclass [shadowSub] none).1 (Or.inl rfl)
  · refine ((C4_select_subclass [shadowSub] (some "zzz")).2.1 "zzz" rfl
      (by decide) (by decide) (by decide)).2 ?_
    intro sc hsc
    have hsc2 : sc = shadowSub := by simpa using hsc
    subst hsc2
    rfl

/-- C5 (amended): after a subclass merge, `spellcasting_ability` and
`spell_slots_by_level` equal the base-class values when those are
truthy (non-None and nonempty, Python `or` semantics), and the subclass
values otherwise; consequently `is_spellcaster` is true whenever the
subclass defines `spellcasting_ability`, even if the base class does
not. -/
theorem C5_amended_spellcasting_merge (cls : CharClassData) (level : Nat)
    (ow : Owner) (sn : Option String) (fc : List String) (c : CharClass)
    (sc : SubClassData)
    (h : construct cls level (some ow) sn fc = Except.ok c)
    (hsub : c.subclass = some sc) :
    (strTruthy cls.spellcasting_ability = true →
      c.spellcasting_ability = cls.spellcasting_ability) ∧
    (strTruthy cls.spellcasting_ability = false →
      c.spellcasting_ability = sc.spellcasting_ability) ∧
    (tableTruthy cls.spell_slots_by_level = true →
      c.spell_slots_by_level = cls.spell_slots_by_level) ∧
    (tableTruthy cls.spell_slots_by_level = false →
      c.spell_slots_by_level = sc.spell_slots_by_level) ∧
    (sc.spellcasting_ability.isSome = true → c.is_spellcaster = true) := by
  obtain ⟨-, hsubeq, -, hsa, hsl⟩ := construct_ok cls level ow sn fc c h
  rw [hsub] at hsubeq
  rw [← hsubeq] at hsa hsl
  refine ⟨?_, ?_, ?_, ?_, ?_⟩
  · intro ht; rw [hsa]; simp [pyOrStr, ht]
  · intro ht; rw [hsa]; simp [pyOrStr, ht]
  · intro ht; rw [hsl]; simp [pyOrTable, ht]
  · intro ht; rw [hsl]; simp [pyOrTable, ht]
  · intro hss
    rw [CharClass.is_spellcaster, hsa]
    cases htr : strTruthy cls.spellcasting_ability with
    | false => simp [pyOrStr, htr, hss]
    | true =>
      cases hcs : cls.spellcasting_ability with
      | none => rw [hcs] at htr; simp [strTruthy] at htr
      | some v =>
        rw [hcs] at htr
        simp [pyOrStr, htr, hcs]

/-- C5 (counterexample): a base class whose `spellcasting_ability` is
set to the empty string — set, but falsy — loses it to the subclass
value after the merge, so the merged value does not equal the
base-class value whenever the latter was set. -/
theorem C5_counterexample :
    construct blankCaster 3 (some demoOwner) (some "shadow") [] =
      Except.ok blankCasterBuilt ∧
    blankCaster.spellcasting_ability.isSome = true ∧
    blankCasterBuilt.spellcasting_ability = some "wisdom" ∧
    blankCasterBuilt.spellcasting_ability ≠ blankCaster.spellcasting_ability := by
  refine ⟨rfl, rfl, ?_, ?_⟩ <;> decide

/-- C5 (witness): the amended statement evaluated on `blankCaster`
merged with `shadowSub`. -/
theorem C5_amended_spellcasting_merge_witness :
    blankCasterBuilt.spellcasting_ability = shadowSub.spellcasting_ability ∧
    blankCasterBuilt.is_spellcaster = true := by
  have h := C5_amended_spellcasting_merge blankCaster 3 demoOwner (some "shadow")
    [] blankCasterBuilt shadowSub rfl rfl
  exact ⟨h.2.1 rfl, h.2.2.2.2 rfl⟩

/-- C6: when no choice string matches any option key, resolution
returns the placeholder carrying the selector name, source and
documentation, flagged `needs_implementation`, and no failure
occurs. -/
theorem C6_placeholder_on_no_match (t : SelectorData) (owner : Owner)
    (choices : List String)
    (h : ∀ s ∈ choices, lookupOption t.options (pyLower s) = none) :
    selectorResolve t owner choices = t.placeholder ∧
    (selectorResolve t owner choices).name = t.name ∧
    (selectorResolve t owner choices).source = t.source ∧
    (selectorResolve t owner choices).doc = t.doc ∧
    (selectorResolve t owner choices).needs_implementation = true := by
  have hpicks : selectorPicks t owner choices = [] := by
    rw [selectorPicks, List.filterMap_eq_nil_iff]
    intro s hs
    simp [h s hs]
  have hres : selectorResolve t owner choices = t.placeholder := by
    rw [selectorResolve, foldl_selectorStep_eq, hpicks]
    rfl
  refine ⟨hres, ?_, ?_, ?_, ?_⟩ <;> rw [hres] <;> rfl

/-- C6 (witness): a choice list matching no option of `demoSelector`
resolves to the placeholder with `needs_implementation` true. -/
theorem C6_placeholder_on_no_match_witness :
    selectorResolve demoSelector demoOwner ["zzz"] = demoSelector.placeholder ∧
    (selectorResolve demoSelector demoOwner ["zzz"]).needs_implementation = true := by
  have h := C6_placeholder_on_no_match demoSelector demoOwner ["zzz"] (by decide)
  exact ⟨h.1, h.2.2.2.2⟩

/-- C7 (amended): after the setter stored `v`, the getter returns the
duration-derived flag OR `v` — an override of `false` cannot suppress a
duration that mentions concentration — and with no override stored the
getter is true exactly when the duration text contains "concentration"
case-insensitively. -/
theorem C7_amended_concentration (s : Spell) (v : Bool) :
    (s.setConcentration v).concentration =
      (strContains (pyLower s.duration) "concentration" || v) ∧
    (s._concentration = false →
      s.concentration = strContains (pyLower s.duration) "concentration") := by
  constructor
  · rfl
  · intro h
    rw [Spell.concentration, h]
    simp

/-- C7 (counterexample): a spell whose duration mentions concentration
still reads `concentration = true` after an explicit override of
`false`, so the setter value is not always returned. -/
theorem C7_counterexample :
    concSpell.duration = "Concentration, up to 1 minute" ∧
    (concSpell.setConcentration false).concentration ≠ false := by
  constructor
  · rfl
  · decide

/-- C7 (witness): the amended statement evaluated on a concentration
spell with an override of false and on a plain spell with no
override. -/
theorem C7_amended_concentration_witness :
    (concSpell.setConcentration false).concentration = true ∧
    plainSpell.concentration = false := by
  constructor
  · rw [(C7_amended_concentration concSpell false).1]
    decide
  · rw [(C7_amended_concentration plainSpell false).2 rfl]
    decide

/-- C8: two spells compare equal exactly when name and level both
match, independent of every other attribute. -/
theorem C8_spell_equality (a b : Spell) :
    Spell.eqSpell a b = true ↔ (a.name = b.name ∧ a.level = b.level) := by
  simp [Spell.eqSpell]

/-- C9: `spell_slots` returns 0 whenever the slot table is absent; with
a table it returns the entry at row `level` and column `spell_level`,
and a missing row or column is an uncaught error (modelled `none`). -/
theorem C9_spell_slots (c : CharClass) (n : Nat) :
    (c.spell_slots_by_level = none → c.spell_slots n = some 0) ∧
    (∀ t row v, c.spell_slots_by_level = some t → t.get? c.level = some row →
      row.get? n = some v → c.spell_slots n = some v) ∧
    (∀ t, c.spell_slots_by_level = some t → t.get? c.level = none →
      c.spell_slots n = none) ∧
    (∀ t row, c.spell_slots_by_level = some t → t.get? c.level = some row →
      row.get? n = none → c.spell_slots n = none) := by
  refine ⟨?_, ?_, ?_, ?_⟩
  · intro h
    unfold CharClass.spell_slots
    rw [h]
  · intro t row v ht hrow hv
    unfold CharClass.spell_slots
    rw [ht]
    show (t.get? c.level).bind (fun row => row.get? n) = some v
    rw [hrow]
    exact hv
  · intro t ht hrow
    unfold CharClass.spell_slots
    rw [ht]
    show (t.get? c.level).bind (fun row => row.get? n) = none
    rw [hrow]
    rfl
  · intro t row ht hrow hv
    unfold CharClass.spell_slots
    rw [ht]
    show (t.get? c.level).bind (fun row => row.get? n) = none
    rw [hrow]
    exact hv

/-- C9 (witness): slot lookups on an instance with no table, and on an
instance with a two-row table at level 1, including an out-of-range
column. -/
theorem C9_spell_slots_witness :
    noTableClass.spell_slots 5 = some 0 ∧
    slotClass.spell_slots 1 = some 5 ∧
    slotClass.spell_slots 2 = none :=
  ⟨(C9_spell_slots noTableClass 5).1 rfl,
   (C9_spell_slots slotClass 1).2.1 [[2, 3], [4, 5]] [4, 5] 5 rfl rfl rfl,
   (C9_spell_slots slotClass 2).2.2.2 [[2, 3], [4, 5]] [4, 5] rfl rfl rfl⟩

/-- C10: constructing with the default owner `None` fails for every
level and argument combination, because the constructor sets the class
as a named attribute on the owner; with any real owner the construction
succeeds. -/
theorem C10_owner_required (cls : CharClassData) (level : Nat)
    (sn : Option String) (fc : List String) :
    (∃ msg, construct cls level none sn fc = Except.error msg) ∧
    (∀ ow : Owner, construct cls level (some ow) sn fc =
      Except.ok (getOkD (construct cls level (some ow) sn fc))) := by
  constructor
  · exact ⟨_, rfl⟩
  · intro ow
    cases hsel : (selectSubclass cls.subclasses_available sn).fst <;>
      simp [construct, hsel, getOkD]

end DungeonSheets
